import Mathlib

/-!
Verification development for the `wxminer` WeChat backup decoder
(`src/wxminer/wechat.py`).  The Python source is shallowly embedded:
pure helpers become Lean functions, the SQLite/file-system collaborators
become explicit function parameters, Python `dict`s become association
lists whose later entries shadow earlier ones (matching Python's
"last assignment wins" semantics), and raised-and-caught exceptions
become `Option`/case returns.
-/

namespace WXMiner

/-! ## MD5 (`hashlib.md5(username.encode("utf-8")).hexdigest()`)

`WeChat._username_to_md5` hashes the UTF-8 bytes of a username and
returns the lowercase hex digest.  We embed MD5 (RFC 1321) directly so
that table-name derivation is fully concrete. -/

def M32 : Nat := 4294967296

def rotl32 (x n : Nat) : Nat :=
  ((x <<< n) ||| (x >>> (32 - n))) % M32

def md5K : List Nat :=
  [0xd76aa478, 0xe8c7b756, 0x242070db, 0xc1bdceee,
   0xf57c0faf, 0x4787c62a, 0xa8304613, 0xfd469501,
   0x698098d8, 0x8b44f7af, 0xffff5bb1, 0x895cd7be,
   0x6b901122, 0xfd987193, 0xa679438e, 0x49b40821,
   0xf61e2562, 0xc040b340, 0x265e5a51, 0xe9b6c7aa,
   0xd62f105d, 0x02441453, 0xd8a1e681, 0xe7d3fbc8,
   0x21e1cde6, 0xc33707d6, 0xf4d50d87, 0x455a14ed,
   0xa9e3e905, 0xfcefa3f8, 0x676f02d9, 0x8d2a4c8a,
   0xfffa3942, 0x8771f681, 0x6d9d6122, 0xfde5380c,
   0xa4beea44, 0x4bdecfa9, 0xf6bb4b60, 0xbebfbc70,
   0x289b7ec6, 0xeaa127fa, 0xd4ef3085, 0x04881d05,
   0xd9d4d039, 0xe6db99e5, 0x1fa27cf8, 0xc4ac5665,
   0xf4292244, 0x432aff97, 0xab9423a7, 0xfc93a039,
   0x655b59c3, 0x8f0ccc92, 0xffeff47d, 0x85845dd1,
   0x6fa87e4f, 0xfe2ce6e0, 0xa3014314, 0x4e0811a1,
   0xf7537e82, 0xbd3af235, 0x2ad7d2bb, 0xeb86d391]

def md5S : List Nat :=
  [7, 12, 17, 22, 7, 12, 17, 22, 7, 12, 17, 22, 7, 12, 17, 22,
   5, 9, 14, 20, 5, 9, 14, 20, 5, 9, 14, 20, 5, 9, 14, 20,
   4, 11, 16, 23, 4, 11, 16, 23, 4, 11, 16, 23, 4, 11, 16, 23,
   6, 10, 15, 21, 6, 10, 15, 21, 6, 10, 15, 21, 6, 10, 15, 21]

def md5F (i b c d : Nat) : Nat :=
  if i < 16 then (b &&& c) ||| ((M32 - 1 - b) &&& d)
  else if i < 32 then (d &&& b) ||| ((M32 - 1 - d) &&& c)
  else if i < 48 then b ^^^ c ^^^ d
  else c ^^^ (b ||| (M32 - 1 - d))

def md5G (i : Nat) : Nat :=
  if i < 16 then i
  else if i < 32 then (5 * i + 1) % 16
  else if i < 48 then (3 * i + 5) % 16
  else (7 * i) % 16

structure MD5St where
  a : Nat
  b : Nat
  c : Nat
  d : Nat
deriving Repr, DecidableEq

def md5Round (m : List Nat) (h : MD5St) (i : Nat) : MD5St :=
  let f := (md5F i h.b h.c h.d + h.a + md5K.getD i 0 + m.getD (md5G i) 0) % M32
  ⟨h.d, (h.b + rotl32 f (md5S.getD i 0)) % M32, h.b, h.c⟩

def md5Block (m : List Nat) (h : MD5St) : MD5St :=
  let r := (List.range 64).foldl (md5Round m) h
  ⟨(h.a + r.a) % M32, (h.b + r.b) % M32, (h.c + r.c) % M32, (h.d + r.d) % M32⟩

def bytesToWords : List Nat → List Nat
  | b0 :: b1 :: b2 :: b3 :: rest =>
    (b0 + 256 * (b1 + 256 * (b2 + 256 * b3))) :: bytesToWords rest
  | _ => []

def natLEBytes (x n : Nat) : List Nat :=
  (List.range n).map (fun i => (x >>> (8 * i)) % 256)

def md5Pad (msg : List Nat) : List Nat :=
  let z := (56 + 64 - ((msg.length + 1) % 64)) % 64
  msg ++ [128] ++ List.replicate z 0 ++ natLEBytes ((8 * msg.length) % 2 ^ 64) 8

def splitBlocksF : Nat → List Nat → List (List Nat)
  | 0, _ => []
  | _, [] => []
  | fuel + 1, x :: xs => (x :: xs).take 64 :: splitBlocksF fuel (xs.drop 63)

def splitBlocks (l : List Nat) : List (List Nat) :=
  splitBlocksF l.length l

def hexDigits : List Char := "0123456789abcdef".toList

def byteToHex (b : Nat) : List Char :=
  [hexDigits.getD (b / 16) '0', hexDigits.getD (b % 16) '0']

def wordLEHex (w : Nat) : List Char :=
  (natLEBytes w 4).flatMap byteToHex

def md5hexBytes (msg : List Nat) : String :=
  let blocks := splitBlocks (md5Pad msg)
  let r := blocks.foldl (fun h blk => md5Block (bytesToWords blk) h)
    ⟨0x67452301, 0xefcdab89, 0x98badcfe, 0x10325476⟩
  (wordLEHex r.a ++ wordLEHex r.b ++ wordLEHex r.c ++ wordLEHex r.d).asString

def utf8Encode (c : Char) : List Nat :=
  let n := c.toNat
  if n < 128 then [n]
  else if n < 2048 then [192 + n / 64, 128 + n % 64]
  else if n < 65536 then [224 + n / 4096, 128 + (n / 64) % 64, 128 + n % 64]
  else [240 + n / 262144, 128 + (n / 4096) % 64, 128 + (n / 64) % 64, 128 + n % 64]

def strBytes (s : String) : List Nat :=
  s.toList.flatMap utf8Encode

/-- Embedding of `WeChat._username_to_md5` (wechat.py lines 84-86):
the lowercase hex MD5 digest of the UTF-8 encoded username. -/
def username_to_md5 (username : String) : String :=
  md5hexBytes (strBytes username)

/-! ## Strict UTF-8 decoding (Python `bytes.decode()`)

`parse_remark` calls `.decode()` on every payload slice; CPython's
strict UTF-8 decoder rejects invalid lead bytes, missing or out-of-range
continuation bytes, overlong encodings, surrogates and code points above
U+10FFFF, raising `UnicodeDecodeError`.  `utf8DecodeList` is that
decoder over a byte list: `none` models the raised error. -/

def utf8Cont (b : Nat) : Bool := decide (128 ≤ b ∧ b < 192)

def utf8Cont3 (b0 b1 : Nat) : Bool :=
  if b0 == 224 then decide (160 ≤ b1 ∧ b1 ≤ 191)
  else if b0 == 237 then decide (128 ≤ b1 ∧ b1 ≤ 159)
  else utf8Cont b1

def utf8Cont4 (b0 b1 : Nat) : Bool :=
  if b0 == 240 then decide (144 ≤ b1 ∧ b1 ≤ 191)
  else if b0 == 244 then decide (128 ≤ b1 ∧ b1 ≤ 143)
  else utf8Cont b1

def utf8DecodeList : List Nat → Option (List Char)
  | [] => some []
  | b0 :: rest =>
    if b0 < 128 then
      (utf8DecodeList rest).map (fun cs => Char.ofNat b0 :: cs)
    else if 194 ≤ b0 ∧ b0 ≤ 223 then
      match rest with
      | b1 :: r =>
        if utf8Cont b1 then
          (utf8DecodeList r).map (fun cs => Char.ofNat ((b0 - 192) * 64 + (b1 - 128)) :: cs)
        else none
      | [] => none
    else if 224 ≤ b0 ∧ b0 ≤ 239 then
      match rest with
      | b1 :: b2 :: r =>
        if utf8Cont3 b0 b1 && utf8Cont b2 then
          (utf8DecodeList r).map (fun cs =>
            Char.ofNat ((b0 - 224) * 4096 + (b1 - 128) * 64 + (b2 - 128)) :: cs)
        else none
      | _ => none
    else if 240 ≤ b0 ∧ b0 ≤ 244 then
      match rest with
      | b1 :: b2 :: b3 :: r =>
        if utf8Cont4 b0 b1 && utf8Cont b2 && utf8Cont b3 then
          (utf8DecodeList r).map (fun cs =>
            Char.ofNat ((b0 - 240) * 262144 + (b1 - 128) * 4096
              + (b2 - 128) * 64 + (b3 - 128)) :: cs)
        else none
      | _ => none
    else none

/-! ## Contact remark decoder (`parse_remark`, wechat.py lines 268-278)

The Python loop walks the blob with a cursor: one tag byte, one length
byte, then `length` payload bytes obtained by *slicing*
(`blob[csor:csor+step]`), which in Python silently truncates at the end
of the buffer; the slice is then UTF-8 decoded (`.decode()`).  Two
failure paths exist, neither of them a `TruncatedRemark`: if the tag
byte is the final byte, reading the length byte (`blob[csor]`) raises an
`IndexError`, and a payload slice that is not valid UTF-8 (for example
one truncated mid-character) raises a `UnicodeDecodeError` at that
record, before any later record is read.  The Python `dict` accumulates
fields in walk order, modelled as a list of (tag, decoded payload)
pairs in the same order.  `fuel` only drives structural recursion; it is
called with the buffer length, which each 2-byte-consuming step keeps
sufficient (the unreachable exhausted-fuel arm answers like the
matching empty-cursor arm cannot, so it is given the error value). -/

inductive RemarkError where
  | indexError
  | unicodeDecodeError
deriving Repr, DecidableEq

def parse_remark_fuel : Nat → List Nat → Except RemarkError (List (Nat × String))
  | _, [] => Except.ok []
  | _, [_] => Except.error RemarkError.indexError
  | 0, _ :: _ :: _ => Except.error RemarkError.indexError
  | fuel + 1, d :: s :: rest =>
    match utf8DecodeList (rest.take s) with
    | none => Except.error RemarkError.unicodeDecodeError
    | some cs =>
      match parse_remark_fuel fuel (rest.drop s) with
      | Except.error e => Except.error e
      | Except.ok fields => Except.ok ((d, cs.asString) :: fields)

def parse_remark (blob : List Nat) : Except RemarkError (List (Nat × String)) :=
  parse_remark_fuel blob.length blob

/-! ## Message table locator (`_get_message_tables`, wechat.py lines 224-230)

The Python code builds `{tb: files[db] for db in message_dbs for tb in
discover(db)}`.  A Python dict-comprehension assigns keys in iteration
order and a later assignment to the same key *overwrites* the earlier
value.  We model the dict as the list of assignments in order, with
lookup (`dictGet`) returning the value of the *last* assignment to the
key, exactly Python's observable lookup semantics. -/

def dictGet : List (String × String) → String → Option String
  | [], _ => none
  | (k, v) :: rest, key =>
    match dictGet rest key with
    | some v2 => some v2
    | none => if k = key then some v else none

def get_message_tables (message_dbs : List String) (files : String → String)
    (discover : String → List String) : List (String × String) :=
  message_dbs.flatMap (fun db => (discover db).map (fun tb => (tb, files db)))

/-- The last database, in enumeration order, whose discovered table list
contains `tb` (used to state what the dict-comprehension merge does). -/
def lastDbFor (discover : String → List String) (tb : String) : List String → Option String
  | [] => none
  | db :: rest =>
    match lastDbFor discover tb rest with
    | some d => some d
    | none => if tb ∈ discover db then some db else none

/-! ## Account selection (`set_user`, wechat.py lines 146-157)

`get_user_list` asserts the candidate list is nonempty; `set_user` then
keeps the requested name unless (a) there are several candidates and the
name is truthy (non-empty) but not among them, in which case the first
candidate is substituted with a warning, or (b) there is at most one
candidate, in which case the first candidate is taken unconditionally
(with an info note).  The returned pair is (selected username, log
messages recorded). -/

def set_user (user_list : List String) (username : String) : String × List String :=
  if 1 < user_list.length then
    if (username != "") && !(user_list.contains username) then
      (user_list.headD "", ["Given user not found! Select first one instead"])
    else
      (username, [])
  else
    (user_list.headD "", ["Only one user found, input ignored!"])

/-! ## Raw and normalized message rows

`_read_chat_message` selects the columns CreateTime, Des, ImgStatus,
MesLocalID, Message, MesSvrID, Status, TableVer, Type; only CreateTime
(stored Unix seconds), Des (direction flag), Message (raw blob) and Type
(type code) are ever examined by the decoder, so the embedding carries
exactly those.  `_parse_chat_message` returns the columns dt, sender,
text, type, where sender and text may be missing (pandas NaN, modelled
as `none`); dt is `datetime.fromtimestamp(CreateTime)`, an injective
conversion by the external datetime library, carried here as the raw
seconds value. -/

structure RawRow where
  CreateTime : Int
  Des : Nat
  Message : String
  typeCode : Int
deriving Repr, DecidableEq

structure NormRow where
  dt : Int
  sender : Option String
  text : Option String
  type : Int
deriving Repr, DecidableEq

/-! ## Regex helpers

`RE_CHATROOM = "[0-9]{8,12}@chatroom"`, used with `re.match` (prefix
match): the string must start with between 8 and 12 digits immediately
followed by `@chatroom`.

`RE_MESSAGE_SPLIT = "^(?:(?P<sender>[0-9A-Za-z_-]{6,20}|[0-9]{8,12}@chatroom):\n)?(?P<Message>.+)$"`
with DOTALL, used with `.str.extract`.  Backtracking semantics: the
username alternative matches exactly when the maximal leading run of
class characters has length 6..20 and is followed by ":\n" with a
nonempty remainder; otherwise the chatroom alternative matches when the
maximal leading digit run has length 8..12 and is followed by
"@chatroom:\n" with a nonempty remainder; otherwise the optional sender
group is skipped and `.+` captures the whole (nonempty) text; an empty
text matches nothing, leaving both captures NaN. -/

def isChatroomId (s : String) : Bool :=
  let cs := s.toList
  (List.range 5).any (fun i =>
    let k := 8 + i
    (cs.take k).all (fun c => c.isDigit) && "@chatroom".toList.isPrefixOf (cs.drop k))

def isNameChar (c : Char) : Bool :=
  c.isDigit || c.isAlpha || c == '_' || c == '-'

def splitSender (s : String) : Option String × Option String :=
  let cs := s.toList
  let run := cs.takeWhile isNameChar
  let l := run.length
  if decide (6 ≤ l) && decide (l ≤ 20) && [':', '\n'].isPrefixOf (cs.drop l)
      && decide (l + 2 < cs.length) then
    (some run.asString, some ((cs.drop (l + 2)).asString))
  else
    let dr := cs.takeWhile (fun c => c.isDigit)
    let dl := dr.length
    if decide (8 ≤ dl) && decide (dl ≤ 12)
        && ("@chatroom".toList ++ [':', '\n']).isPrefixOf (cs.drop dl)
        && decide (dl + 11 < cs.length) then
      (some (dr ++ "@chatroom".toList).asString, some ((cs.drop (dl + 11)).asString))
    else if cs.isEmpty then (none, none)
    else (none, some s)

/-! ## Python `int()` over a string (pandas `.astype(int)` element step)

`astype(int)` applies Python `int(str)`: surrounding whitespace is
stripped, an optional sign precedes a nonempty digit run; anything else
raises `ValueError` (modelled by `none`). -/

def stripWs (cs : List Char) : List Char :=
  ((cs.dropWhile Char.isWhitespace).reverse.dropWhile Char.isWhitespace).reverse

def digitsVal (ds : List Char) : Option Nat :=
  if ds = [] then none
  else if ds.all Char.isDigit then
    some (ds.foldl (fun a c => 10 * a + (c.toNat - 48)) 0)
  else none

def pyInt (s : String) : Option Int :=
  match stripWs s.toList with
  | '-' :: ds => (digitsVal ds).map (fun n => -(n : Int))
  | '+' :: ds => (digitsVal ds).map (fun n => (n : Int))
  | ds => (digitsVal ds).map (fun n => (n : Int))

/-! ## Message decoder (`_parse_videomsg`, `_parse_appmsg`,
`_parse_chat_message`, wechat.py lines 373-438)

`_parse_xml` (an lxml wrapper, lines 97-115) is total: any failure —
malformed XML, missing path or attribute, or a NaN message — is caught
and yields the empty string.  It is carried as an explicit function
parameter `px : xml → path → attr → String`; `pxOpt` lifts it to the
possibly-NaN (post-split) message.

Sender resolution order in the code (lines 419-423): first rows with
`Des == 0` get the account username, then video rows (Type 43) are
overwritten with the `videomsg/@fromusername` XML attribute, then
app-card rows (Type 49) are overwritten with the `fromusername` XML
element (the `.combine_first` fallback to `fromUser` never fires because
`_parse_xml` returns "" — not NaN — on a missing element), and finally
rows with Type < 10000 whose sender is still NaN get the peer identity.

The app-card type column is `_parse_xml(·, "type")`, with "" replaced by
NA, filled with 49, then `.astype(int)`: a nonempty value that `int()`
cannot parse raises `ValueError`, aborting the whole batch (modelled by
`none` from the row and propagated by `parse_chat_message`). -/

def pxOpt (px : String → String → String → String) (m : Option String)
    (path attr : String) : String :=
  match m with
  | none => ""
  | some s => px s path attr

/-- The group sender split stage (wechat.py lines 410-413): applied only
when the peer is a chatroom and the row is not mine; returns the
(sender, Message) column pair after the stage. -/
def splitStage (contact : String) (r : RawRow) : Option String × Option String :=
  if isChatroomId contact && !(r.Des == 0) then splitSender r.Message
  else (none, some r.Message)

/-- App-card sub-type resolution (wechat.py lines 386-391): "" means the
XML `type` element was absent/unreadable and defaults to 49; otherwise
`int()` is applied and `none` models the `ValueError` raised on an
unparsable value. -/
def appType (px : String → String → String → String) (m : Option String) : Option Int :=
  let ts := pxOpt px m "type" ""
  if ts = "" then some 49 else pyInt ts

def normalizeRow (px : String → String → String → String)
    (username contact : String) (replaceMedia : Bool) (r : RawRow) : Option NormRow :=
  let sm := splitStage contact r
  let m0 := sm.2
  let s1 := if r.Des == 0 then some username else sm.1
  let s2 := if r.typeCode == 43 then some (pxOpt px m0 "videomsg" "fromusername") else s1
  let s3 := if r.typeCode == 49 then some (pxOpt px m0 "fromusername" "") else s2
  let s4 := if decide (r.typeCode < 10000) && s3.isNone then some contact else s3
  let ty := if r.typeCode == 49 then appType px m0 else some r.typeCode
  let tx1 : Option String := if r.typeCode == 1 then m0 else none
  let tx2 := if r.typeCode == 49 then some (pxOpt px m0 "title" "") else tx1
  let tx3 := if replaceMedia then
      if r.typeCode == 3 then some "[图片]"
      else if r.typeCode == 34 then some "[语音]"
      else if r.typeCode == 43 then some "[视频]"
      else if r.typeCode == 47 then some "[表情]"
      else tx2
    else tx2
  match ty with
  | none => none
  | some t => some ⟨r.CreateTime, s4, tx3, t⟩

/-- Embedding of `_parse_chat_message` on a batch of raw rows: row-wise
normalization, with the whole batch failing (exception propagated to the
caller) when any app-card row carries an unparsable sub-type. -/
def parse_chat_message (px : String → String → String → String)
    (username contact : String) (replaceMedia : Bool) :
    List RawRow → Option (List NormRow)
  | [] => some []
  | r :: rs =>
    match normalizeRow px username contact replaceMedia r,
        parse_chat_message px username contact replaceMedia rs with
    | some nr, some nrs => some (nr :: nrs)
    | _, _ => none

/-! ## Chat table derivation (wechat.py lines 304, 318 and 329)

`get_contact` stores, for every friend and every group row, the column
`table = "Chat_" + _username_to_md5(identity)`; `_read_chat_message`
queries the table `"Chat_{}".format(_username_to_md5(contact))`.  Both
derivations are embedded separately from their two code sites. -/

def contact_table (identity : String) : String :=
  "Chat_" ++ username_to_md5 identity

def reader_table (contact : String) : String :=
  "Chat_" ++ username_to_md5 contact

/-! ## Message query (`_read_chat_message`, wechat.py lines 325-371)

External collaborators as parameters: `parseIso` models
`datetime.fromisoformat` restricted to the calendar day of its result
(the time-of-day is immediately zeroed by `.replace(hour=0, ...)`),
`today` is the current day, and `dayTs` models
`int(datetime(<day>, 0:00).timestamp())`, the local-midnight Unix
timestamp of a day.  `readTable dbfile table` models opening the
database and reading the whole chat table; `none` models any raised
read error.  The SQL WHERE clause the code appends is applied here as
the filter over the stored rows: always `CreateTime < dayTs (ed+1)`
where `ed` is the parsed end day (defaulting to today on a parse
failure), plus `CreateTime >= dayTs sd` when a start date is given and
parses; a start date that fails to parse only logs a warning.  A failed
table lookup (`KeyError` from `message_tables[table]`) or a failed read
is caught and yields the empty frame plus an error log. -/

structure WxState where
  username : String
  message_tables : List (String × String)
  readTable : String → String → Option (List RawRow)

def read_chat_message (w : WxState) (parseIso : String → Option Nat) (today : Nat)
    (dayTs : Nat → Int) (contact sdate edate : String) : List RawRow × List String :=
  let table := reader_table contact
  let ed := (parseIso edate).getD today
  let et := dayTs (ed + 1)
  let pl :=
    if sdate != "" then
      match parseIso sdate with
      | none => ((fun r : RawRow => decide (r.CreateTime < et)),
          ["Wrong date format, check your input!"])
      | some sd => ((fun r : RawRow =>
          decide (r.CreateTime < et) && decide (dayTs sd ≤ r.CreateTime)), [])
    else ((fun r : RawRow => decide (r.CreateTime < et)), [])
  match dictGet w.message_tables table with
  | none => ([], pl.2 ++ ["Failed to read message of " ++ contact])
  | some dbfile =>
    match w.readTable dbfile table with
    | none => ([], pl.2 ++ ["Failed to read message of " ++ contact])
    | some rows => (rows.filter pl.1, pl.2)

/-- Embedding of `get_friend_chat` (wechat.py lines 440-447) with
`raw=False`: read, then normalize; the log of the read step is carried
alongside.  The normalization result is `none` exactly when
`_parse_chat_message` raises. -/
def get_friend_chat (w : WxState) (px : String → String → String → String)
    (parseIso : String → Option Nat) (today : Nat) (dayTs : Nat → Int)
    (friend sdate edate : String) : Option (List NormRow) × List String :=
  let rl := read_chat_message w parseIso today dayTs friend sdate edate
  (parse_chat_message px w.username friend true rl.1, rl.2)

/-! ## Group chat query (`get_group_chat`, wechat.py lines 449-465)

After reading and normalizing (as `get_friend_chat` does), the code
builds a `names` Series and maps every normalized sender through it:

- `names = self.friends["nickname"].copy()` — the friends nickname
  column, label → cell, where a cell is a string or NaN;
- `names[group] = self.groups["nickname"]` (line 458) — a Series
  *setitem* that stores the whole groups-nickname Series object into the
  single cell at label `group` (an opaque non-string object, constructor
  `PdValue.obj`; no examined behavior ever reads its contents);
- `names[self.username] = self.nickname`;
- when `use_display_name` (the default), `self.groups.at[group,
  "chatroom"]` (line 461) is read — `.at` raises `KeyError` when
  `group` is absent from the groups table's index — and if the member
  roster has a `DisplayName` column it is overlaid over `names` via
  `combine_first` (roster value wins unless NaN);
- `msg["name"] = msg["sender"].map(names)`: a NaN sender, or a sender
  absent from `names`, maps to NaN.

A `ValueError` escaping `_parse_chat_message` (unparsable app-card
sub-type) also propagates out of `get_group_chat`; both uncaught
exceptions are the `Except.error` cases. -/

inductive PdValue where
  | na
  | str (v : String)
  | obj
deriving Repr, DecidableEq

inductive PyError where
  | keyError
  | valueError
deriving Repr, DecidableEq

/-- The contact/group model state `get_group_chat` consults: the friends
nickname column, the account's display name, the groups table's row
labels, and each group's member roster (member → DisplayName cell) with
the presence flag of its DisplayName column. -/
structure ContactModel where
  friends_nickname : List (String × PdValue)
  my_nickname : String
  groups_index : List String
  groups_chatroom : String → List (String × Option String)
  groups_hasDisplayName : String → Bool

/-- Pandas `Series.__setitem__` by label: overwrite the cell if the
label exists, otherwise append it. -/
def seriesSet (ser : List (String × PdValue)) (k : String) (v : PdValue) :
    List (String × PdValue) :=
  if ser.any (fun p => p.1 == k) then
    ser.map (fun p => if p.1 == k then (p.1, v) else p)
  else ser ++ [(k, v)]

def seriesGet (ser : List (String × PdValue)) (k : String) : Option PdValue :=
  (ser.find? (fun p => p.1 == k)).map (fun p => p.2)

/-- Pandas `a.combine_first(b)`: over the union of labels, `a`'s cell
wins unless it is NaN. -/
def combineFirst (a b : List (String × PdValue)) : List (String × PdValue) :=
  a.map (fun p => if p.2 = PdValue.na then (p.1, (seriesGet b p.1).getD PdValue.na) else p)
    ++ b.filter (fun q => !(a.any (fun p => p.1 == q.1)))

def displayNameCol (roster : List (String × Option String)) : List (String × PdValue) :=
  roster.map (fun p => (p.1, match p.2 with
    | none => PdValue.na
    | some s => PdValue.str s))

/-- `msg["sender"].map(names)`: a missing sender or a sender absent
from the Series maps to NaN. -/
def lookupName (ser : List (String × PdValue)) : Option String → PdValue
  | none => PdValue.na
  | some s => (seriesGet ser s).getD PdValue.na

def get_group_chat (w : WxState) (cm : ContactModel)
    (px : String → String → String → String) (parseIso : String → Option Nat)
    (today : Nat) (dayTs : Nat → Int) (group sdate edate : String)
    (use_display_name : Bool) :
    Except PyError (List (NormRow × PdValue)) × List String :=
  let rl := read_chat_message w parseIso today dayTs group sdate edate
  match parse_chat_message px w.username group true rl.1 with
  | none => (Except.error PyError.valueError, rl.2)
  | some msg =>
    let names1 := seriesSet cm.friends_nickname group PdValue.obj
    let names2 := seriesSet names1 w.username (PdValue.str cm.my_nickname)
    if use_display_name then
      if group ∈ cm.groups_index then
        let member := cm.groups_chatroom group
        let names3 :=
          if cm.groups_hasDisplayName group then
            combineFirst (displayNameCol member) names2
          else names2
        (Except.ok (msg.map (fun nr => (nr, lookupName names3 nr.sender))), rl.2)
      else (Except.error PyError.keyError, rl.2)
    else
      (Except.ok (msg.map (fun nr => (nr, lookupName names2 nr.sender))), rl.2)

/-! ## Session listing (`get_session`, wechat.py lines 467-480)

The whole body sits in a `try` whose `except` returns an empty frame:
a missing session database path (`KeyError` on the file index) and a
failed SQL read are both caught. -/

structure SessionRow where
  UsrName : String
  CreateTime : Int
  unreadcount : Int
deriving Repr, DecidableEq

def get_session (files : String → Option String)
    (readSession : String → Option (List SessionRow)) (pre : String) : List SessionRow :=
  match files (pre ++ "session/session.db") with
  | none => []
  | some dbpath =>
    match readSession dbpath with
    | none => []
    | some s => s

/-!
# Theorems
-/

set_option maxRecDepth 8000

theorem md5_rfc_empty : username_to_md5 "" = "d41d8cd98f00b204e9800998ecf8427e" := by
  decide

theorem md5_rfc_abc : username_to_md5 "abc" = "900150983cd24fb0d6963f7d28e17f72" := by
  decide

theorem utf8_plain_and_multibyte :
    utf8DecodeList [65, 66] = some ['A', 'B'] ∧
    utf8DecodeList [228, 189, 160] = some ['你'] := by
  decide

theorem utf8_rejects_truncated_and_overlong :
    utf8DecodeList [195] = none ∧ utf8DecodeList [192, 128] = none := by
  decide

/-- C10: decoding a zero-length remark blob succeeds and returns the
empty mapping; the tag-length-value walk performs no iterations and
raises no error (neither of the decoder's two real failure paths, the
missing length byte and an invalid UTF-8 payload, can fire on empty
input). -/
theorem c10_empty_remark : parse_remark [] = Except.ok [] := rfl

/-- C3 counterexample: the buffer `[10, 5, 65]` holds a record whose
length field (5) would read past the end of the buffer (only 1 payload
byte remains).  The claim says decoding must fail with `TruncatedRemark`
and must not return a silently truncated payload; the code has no
`TruncatedRemark` path at all: the Python slice truncates silently, the
1-byte slice decodes as the ASCII string "A", and decoding succeeds,
returning a mapping whose payload holds 1 byte instead of the declared
5. -/
theorem c3_truncated_remark_cex :
    parse_remark [10, 5, 65] = Except.ok [(10, "A")] ∧ "A".length < 5 := by
  refine ⟨rfl, by decide⟩

/-- C3 (amended): a record whose length field reads past the end of the
buffer never raises a `TruncatedRemark` (no such error exists in the
code): the payload slice is silently truncated to the bytes that remain
(such a record is necessarily the last, since the cursor jumps past the
end), and decoding succeeds with the truncated payload whenever those
bytes are valid UTF-8; when they are not (for example a slice cut
mid-character), the payload `.decode()` raises `UnicodeDecodeError`.
The only other failure is an `IndexError` when a record's tag byte is
the final byte, so that the length byte itself is missing. -/
theorem c3_truncation_amended (d s : Nat) (rest : List Nat) (h : rest.length < s) :
    (∀ cs : List Char, utf8DecodeList rest = some cs →
      parse_remark (d :: s :: rest) = Except.ok [(d, cs.asString)]) ∧
    (utf8DecodeList rest = none →
      parse_remark (d :: s :: rest) = Except.error RemarkError.unicodeDecodeError) ∧
    parse_remark [d] = Except.error RemarkError.indexError := by
  have htake : rest.take s = rest := List.take_of_length_le (Nat.le_of_lt h)
  have hdrop : rest.drop s = [] := List.drop_eq_nil_of_le (Nat.le_of_lt h)
  refine ⟨fun cs hcs => ?_, fun hcs => ?_, rfl⟩ <;>
  · show parse_remark_fuel (rest.length + 2) (d :: s :: rest) = _
    simp [parse_remark_fuel, htake, hdrop, hcs]

theorem c3_truncation_amended_witness :
    parse_remark [7, 9, 65, 66] = Except.ok [(7, "AB")] ∧
    parse_remark [10, 2, 195] = Except.error RemarkError.unicodeDecodeError ∧
    parse_remark [7] = Except.error RemarkError.indexError :=
  ⟨(c3_truncation_amended 7 9 [65, 66] (by decide)).1 ['A', 'B'] rfl,
   (c3_truncation_amended 10 2 [195] (by decide)).2.1 rfl,
   (c3_truncation_amended 7 9 [65, 66] (by decide)).2.2⟩

theorem dictGet_append (a b : List (String × String)) (k : String) :
    dictGet (a ++ b) k =
      match dictGet b k with
      | some v => some v
      | none => dictGet a k := by
  induction a with
  | nil => cases h : dictGet b k <;> simp [dictGet, h]
  | cons p a ih =>
    obtain ⟨pk, pv⟩ := p
    cases h : dictGet b k <;> simp_all [dictGet]

theorem dictGet_map_const (l : List String) (f tb : String) :
    dictGet (l.map (fun t => (t, f))) tb = if tb ∈ l then some f else none := by
  induction l with
  | nil => rfl
  | cons x xs ih =>
    by_cases hx : tb ∈ xs
    · simp [dictGet, ih, hx]
    · by_cases hxt : x = tb
      · simp [dictGet, ih, hx, hxt]
      · have hne : tb ≠ x := fun hh => hxt hh.symm
        simp [dictGet, ih, hx, hxt, hne]

/-- C2 counterexample: when both enumerated databases yield the same
table name, the locator maps it to the file of the *second* database,
not the first as the claim states: the dict comprehension lets later
databases overwrite earlier entries. -/
theorem c2_first_writer_cex :
    dictGet (get_message_tables ["message_1.sqlite", "message_2.sqlite"]
        (fun db => "Documents/" ++ db) (fun _ => ["Chat_0123456789abcdef0123456789abcdef"]))
        "Chat_0123456789abcdef0123456789abcdef"
      = some "Documents/message_2.sqlite" ∧
    dictGet (get_message_tables ["message_1.sqlite", "message_2.sqlite"]
        (fun db => "Documents/" ++ db) (fun _ => ["Chat_0123456789abcdef0123456789abcdef"]))
        "Chat_0123456789abcdef0123456789abcdef"
      ≠ some "Documents/message_1.sqlite" := by
  decide

/-- C2 (amended): for every table name, the final locator mapping holds
the file of the *last* database in enumeration order that yielded it;
later databases overwrite entries contributed by earlier ones (last
writer wins). -/
theorem c2_last_writer_wins (message_dbs : List String) (files : String → String)
    (discover : String → List String) (tb : String) :
    dictGet (get_message_tables message_dbs files discover) tb
      = (lastDbFor discover tb message_dbs).map files := by
  induction message_dbs with
  | nil => rfl
  | cons db rest ih =>
    show dictGet ((discover db).map (fun t => (t, files db))
      ++ get_message_tables rest files discover) tb = _
    rw [dictGet_append]
    cases h : lastDbFor discover tb rest with
    | some d => simp [lastDbFor, h, ih]
    | none =>
      by_cases hm : tb ∈ discover db <;>
        simp [lastDbFor, h, ih, dictGet_map_const, hm]

/-- C6 counterexample: with more than one candidate account and an
*empty* requested identity, `set_user` keeps the empty string instead
of selecting the first candidate, so the selected identity is not a
member of the candidate set, contrary to the claim. -/
theorem c6_empty_requested_cex :
    (set_user ["alice123", "bob4567"] "").1 = "" ∧
    (set_user ["alice123", "bob4567"] "").1 ∉ ["alice123", "bob4567"] ∧
    (set_user ["alice123", "bob4567"] "").1 ≠ "alice123" := by
  decide

/-- C6 (amended): with more than one candidate, a requested identity
that is among the candidates is selected; a *non-empty* requested
identity not among them falls back to the first candidate with a
warning recorded; but an *empty* requested identity is kept as the
empty string, which is not a member of the candidate set (the
subsequent profile lookup then fails). -/
theorem c6_selection (user_list : List String) (username : String)
    (h : 1 < user_list.length) :
    (username ∈ user_list → (set_user user_list username).1 = username) ∧
    (username ≠ "" → username ∉ user_list →
      (set_user user_list username).1 = user_list.headD "" ∧
      (set_user user_list username).2 ≠ []) ∧
    (username = "" → (set_user user_list username).1 = "") := by
  refine ⟨fun h1 => ?_, fun h1 h2 => ?_, fun h1 => ?_⟩ <;>
    simp_all [set_user]

theorem c6_selection_witness :
    (set_user ["alice123", "bob4567"] "bob4567").1 = "bob4567" :=
  (c6_selection ["alice123", "bob4567"] "bob4567" (by decide)).1 (by decide)

/-- C9: `get_session` never raises: when the session database path is
absent from the file index, or when the SQL read of `SessionAbstract`
fails, it returns the empty table; both failures are caught by the
surrounding try/except (the embedding is a total function, so no
exception propagates). -/
theorem c9_session_fail_closed (files : String → Option String)
    (readSession : String → Option (List SessionRow)) (pre : String) :
    (files (pre ++ "session/session.db") = none →
      get_session files readSession pre = []) ∧
    (∀ dbpath, files (pre ++ "session/session.db") = some dbpath →
      readSession dbpath = none → get_session files readSession pre = []) := by
  constructor
  · intro h
    simp [get_session, h]
  · intro dbpath h1 h2
    simp [get_session, h1, h2]

theorem c9_session_witness :
    get_session (fun _ => none) (fun _ => none) "Documents/0123/" = [] :=
  (c9_session_fail_closed (fun _ => none) (fun _ => none) "Documents/0123/").1 rfl

theorem normalizeRow_mymsg_sender (px : String → String → String → String)
    (username contact : String) (rm : Bool) (r : RawRow) (nr : NormRow)
    (hdes : r.Des = 0) (h43 : r.typeCode ≠ 43) (h49 : r.typeCode ≠ 49)
    (h : normalizeRow px username contact rm r = some nr) :
    nr.sender = some username := by
  have e0 : (r.Des == 0) = true := beq_iff_eq.mpr hdes
  have e43 : (r.typeCode == 43) = false := beq_eq_false_iff_ne.mpr h43
  have e49 : (r.typeCode == 49) = false := beq_eq_false_iff_ne.mpr h49
  simp only [normalizeRow, e0, e43, e49, if_true, if_false, Option.isNone_some,
    Bool.and_false, Bool.false_eq_true, Option.some.injEq] at h
  subst h
  rfl

/-- C1 counterexample: a video row (raw type 43) whose direction flag is
0 does *not* resolve to the account identity: the type-specific sender
assignment (wechat.py line 421) runs *after* the direction-flag
assignment (line 420) and overwrites it with the XML
`videomsg/@fromusername` value ("bob4567" here), so the resolved sender
differs from the account identity "me1234". -/
theorem c1_sender_override_cex :
    parse_chat_message (fun _ _ _ => "bob4567") "me1234" "alice123" true
        [⟨100, 0, "xml", 43⟩]
      = some [⟨100, some "bob4567", some "[视频]", 43⟩] ∧
    some "bob4567" ≠ some "me1234" := by
  decide

/-- C1 (amended): in every normalized batch, every row whose direction
flag (Des) equals 0 *and whose raw type is neither 43 (video) nor 49
(app-card)* has its resolved sender equal to the active account's
identity; for video and app-card rows the type-specific sender
extraction runs later and overrides the direction-flag result. -/
theorem c1_mymsg_sender (px : String → String → String → String)
    (username contact : String) (rm : Bool) (rows : List RawRow) (out : List NormRow)
    (h : parse_chat_message px username contact rm rows = some out) :
    List.Forall₂ (fun (r : RawRow) (nr : NormRow) =>
      r.Des = 0 → r.typeCode ≠ 43 → r.typeCode ≠ 49 → nr.sender = some username)
      rows out := by
  induction rows generalizing out with
  | nil =>
    simp only [parse_chat_message, Option.some.injEq] at h
    subst h
    exact List.Forall₂.nil
  | cons r rs ih =>
    unfold parse_chat_message at h
    cases h1 : normalizeRow px username contact rm r with
    | none => rw [h1] at h; simp at h
    | some nr =>
      rw [h1] at h
      cases h2 : parse_chat_message px username contact rm rs with
      | none => rw [h2] at h; simp at h
      | some nrs =>
        rw [h2] at h
        simp only [Option.some.injEq] at h
        subst h
        exact List.Forall₂.cons
          (fun hd hh43 hh49 =>
            normalizeRow_mymsg_sender px username contact rm r nr hd hh43 hh49 h1)
          (ih nrs h2)

theorem c1_mymsg_sender_witness :
    List.Forall₂ (fun (r : RawRow) (nr : NormRow) =>
      r.Des = 0 → r.typeCode ≠ 43 → r.typeCode ≠ 49 → nr.sender = some "me1234")
      [⟨5, 0, "hello", 1⟩] [⟨5, some "me1234", some "hello", 1⟩] :=
  c1_mymsg_sender (fun _ _ _ => "") "me1234" "alice123" true
    [⟨5, 0, "hello", 1⟩] [⟨5, some "me1234", some "hello", 1⟩] rfl

/-- C5 counterexample: an app-card row whose XML `type` element is
present but not parsable as an integer ("abc") does not get the generic
app-card code 49 as the claim states: `.astype(int)` raises
`ValueError`, aborting the whole normalization (result `none`), so no
normalized output exists at all. -/
theorem c5_unparsable_subtype_cex :
    parse_chat_message
      (fun _ path _ => if path == "type" then "abc"
        else if path == "title" then "Article" else "")
      "me1234" "alice123" true [⟨1, 1, "xml", 49⟩] = none := by
  decide

/-- C5 (amended): for every app-card row (raw type 49) in a batch that
normalizes successfully, the display text equals the extracted text of
the XML `title` element, and the output type code equals 49 when the
extracted `type` element text is empty (absent), and equals the parsed
integer value when Python `int()` accepts the extracted text; an
extracted nonempty text that `int()` rejects instead raises, aborting
the batch (see the counterexample). -/
theorem c5_appmsg_fields (px : String → String → String → String)
    (username contact : String) (rm : Bool) (r : RawRow) (nr : NormRow)
    (h49 : r.typeCode = 49)
    (h : normalizeRow px username contact rm r = some nr) :
    nr.text = some (pxOpt px (splitStage contact r).2 "title" "") ∧
    (pxOpt px (splitStage contact r).2 "type" "" = "" → nr.type = 49) ∧
    (∀ n : Int, pyInt (pxOpt px (splitStage contact r).2 "type" "") = some n →
      nr.type = n) := by
  have e49 : (r.typeCode == 49) = true := beq_iff_eq.mpr h49
  have e1 : (r.typeCode == 1) = false := beq_eq_false_iff_ne.mpr (by rw [h49]; decide)
  have e3 : (r.typeCode == 3) = false := beq_eq_false_iff_ne.mpr (by rw [h49]; decide)
  have e34 : (r.typeCode == 34) = false := beq_eq_false_iff_ne.mpr (by rw [h49]; decide)
  have e43 : (r.typeCode == 43) = false := beq_eq_false_iff_ne.mpr (by rw [h49]; decide)
  have e47 : (r.typeCode == 47) = false := beq_eq_false_iff_ne.mpr (by rw [h49]; decide)
  simp only [normalizeRow, e49, e1, e3, e34, e43, e47, if_true, if_false, ite_self] at h
  by_cases hts : pxOpt px (splitStage contact r).2 "type" "" = ""
  · simp only [appType, hts, if_true, reduceIte] at h
    simp only [Option.some.injEq] at h
    subst h
    refine ⟨by simp, fun _ => rfl, fun n hn => ?_⟩
    rw [hts] at hn
    rw [show pyInt "" = none from rfl] at hn
    exact Option.noConfusion hn
  · simp only [appType, hts, reduceIte] at h
    cases hp : pyInt (pxOpt px (splitStage contact r).2 "type" "") with
    | none => rw [hp] at h; exact Option.noConfusion h
    | some t =>
      rw [hp] at h
      simp only [Option.some.injEq] at h
      subst h
      refine ⟨by simp, fun hc => absurd hc hts, fun n hn => ?_⟩
      exact Option.some.inj hn

theorem c5_appmsg_fields_witness :
    (⟨1, some "", some "Article", 5⟩ : NormRow).text
      = some (pxOpt
          (fun _ path _ => if path == "type" then "5"
            else if path == "title" then "Article" else "")
          (splitStage "alice123" ⟨1, 1, "xml", 49⟩).2 "title" "") ∧
    (⟨1, some "", some "Article", 5⟩ : NormRow).type = 5 :=
  ⟨(c5_appmsg_fields
      (fun _ path _ => if path == "type" then "5"
        else if path == "title" then "Article" else "")
      "me1234" "alice123" true ⟨1, 1, "xml", 49⟩ ⟨1, some "", some "Article", 5⟩
      rfl rfl).1,
   (c5_appmsg_fields
      (fun _ path _ => if path == "type" then "5"
        else if path == "title" then "Article" else "")
      "me1234" "alice123" true ⟨1, 1, "xml", 49⟩ ⟨1, some "", some "Article", 5⟩
      rfl rfl).2.2 5 (by decide)⟩

/-- C4 counterexample: with a located table holding one stored row, an
unparsable start date ("garbage") and an unparsable end date ("x"), the
query does *not* return the empty sequence: the end date silently
defaults to today, the start filter is dropped with only a warning, and
the stored row is returned. -/
theorem c4_bad_date_cex :
    (read_chat_message
        ⟨"me1234", [(reader_table "alice123", "Documents/db1")],
          fun _ _ => some [⟨5, 1, "hi", 1⟩]⟩
        (fun _ => none) 1 (fun d => 86400 * (d : Int)) "alice123" "garbage" "x").1
      = [⟨5, 1, "hi", 1⟩] ∧
    (read_chat_message
        ⟨"me1234", [(reader_table "alice123", "Documents/db1")],
          fun _ _ => some [⟨5, 1, "hi", 1⟩]⟩
        (fun _ => none) 1 (fun d => 86400 * (d : Int)) "alice123" "garbage" "x").1
      ≠ [] := by
  decide

/-- C4 (amended): when no physical table is located for the peer, the
raw read returns the empty sequence with a diagnostic and no exception,
and `get_friend_chat` then normalizes the empty batch to `some []`;
`get_group_chat` also returns the empty sequence in that case when the
peer is present in the groups model, or when display names are not
requested — but with display names requested (the default) and the peer
absent from the groups model it raises `KeyError` at
`self.groups.at[group, "chatroom"]` even in the no-table case, so "no
exception is surfaced" does not hold of every listed entry point.
Moreover an unparsable date does *not* empty the result: an unparsable
start date only drops the start filter and logs a warning, and an
unparsable end date silently defaults to today, so the (end-filtered)
stored rows are still returned. -/
theorem c4_fail_closed (w : WxState) (cm : ContactModel)
    (px : String → String → String → String)
    (parseIso : String → Option Nat) (today : Nat) (dayTs : Nat → Int)
    (contact sdate edate : String) :
    (dictGet w.message_tables (reader_table contact) = none →
      (read_chat_message w parseIso today dayTs contact sdate edate).1 = [] ∧
      (read_chat_message w parseIso today dayTs contact sdate edate).2 ≠ [] ∧
      (get_friend_chat w px parseIso today dayTs contact sdate edate).1 = some [] ∧
      (contact ∈ cm.groups_index →
        (get_group_chat w cm px parseIso today dayTs contact sdate edate true).1
          = Except.ok []) ∧
      (get_group_chat w cm px parseIso today dayTs contact sdate edate false).1
        = Except.ok [] ∧
      (contact ∉ cm.groups_index →
        (get_group_chat w cm px parseIso today dayTs contact sdate edate true).1
          = Except.error PyError.keyError)) ∧
    (∀ dbfile rows, dictGet w.message_tables (reader_table contact) = some dbfile →
      w.readTable dbfile (reader_table contact) = some rows →
      sdate ≠ "" → parseIso sdate = none →
      (read_chat_message w parseIso today dayTs contact sdate edate).1
        = rows.filter (fun r =>
            decide (r.CreateTime < dayTs ((parseIso edate).getD today + 1))) ∧
      (read_chat_message w parseIso today dayTs contact sdate edate).2 ≠ []) := by
  constructor
  · intro h
    have ha : (read_chat_message w parseIso today dayTs contact sdate edate).1 = [] := by
      simp [read_chat_message, h]
    refine ⟨ha, ?_, ?_, fun hg => ?_, ?_, fun hg => ?_⟩
    · simp [read_chat_message, h]
    · simp [get_friend_chat, ha, parse_chat_message]
    · simp [get_group_chat, ha, parse_chat_message, hg]
    · simp [get_group_chat, ha, parse_chat_message]
    · simp [get_group_chat, ha, parse_chat_message, hg]
  · intro dbfile rows h1 h2 h3 h4
    have hb : (sdate != "") = true := bne_iff_ne.mpr h3
    constructor <;> simp [read_chat_message, hb, h4, h1, h2]

theorem c4_fail_closed_witness :
    (read_chat_message ⟨"me1234", [], fun _ _ => none⟩ (fun _ => none) 0
        (fun d => 86400 * (d : Int)) "alice123" "" "").1 = [] ∧
    (read_chat_message ⟨"me1234", [], fun _ _ => none⟩ (fun _ => none) 0
        (fun d => 86400 * (d : Int)) "alice123" "" "").2 ≠ [] ∧
    (get_friend_chat ⟨"me1234", [], fun _ _ => none⟩ (fun _ _ _ => "") (fun _ => none) 0
        (fun d => 86400 * (d : Int)) "alice123" "" "").1 = some [] ∧
    ("alice123" ∈ (⟨[], "微信用户", [], fun _ => [], fun _ => false⟩ : ContactModel).groups_index →
      (get_group_chat ⟨"me1234", [], fun _ _ => none⟩
          ⟨[], "微信用户", [], fun _ => [], fun _ => false⟩ (fun _ _ _ => "") (fun _ => none) 0
          (fun d => 86400 * (d : Int)) "alice123" "" "" true).1 = Except.ok []) ∧
    (get_group_chat ⟨"me1234", [], fun _ _ => none⟩
        ⟨[], "微信用户", [], fun _ => [], fun _ => false⟩ (fun _ _ _ => "") (fun _ => none) 0
        (fun d => 86400 * (d : Int)) "alice123" "" "" false).1 = Except.ok [] ∧
    ("alice123" ∉ (⟨[], "微信用户", [], fun _ => [], fun _ => false⟩ : ContactModel).groups_index →
      (get_group_chat ⟨"me1234", [], fun _ _ => none⟩
          ⟨[], "微信用户", [], fun _ => [], fun _ => false⟩ (fun _ _ _ => "") (fun _ => none) 0
          (fun d => 86400 * (d : Int)) "alice123" "" "" true).1
        = Except.error PyError.keyError) :=
  (c4_fail_closed ⟨"me1234", [], fun _ _ => none⟩
    ⟨[], "微信用户", [], fun _ => [], fun _ => false⟩ (fun _ _ _ => "") (fun _ => none) 0
    (fun d => 86400 * (d : Int)) "alice123" "" "").1 rfl

/-- C7: with parsable start and end dates, a located table and a
successful read, the message query returns exactly the stored rows whose
raw Unix timestamp lies in the half-open interval from the start-of-day
timestamp of the start date (inclusive) to the start-of-day timestamp
of the day after the end date (exclusive); the filter is applied to the
stored timestamps of the raw rows, before any decoding. -/
theorem c7_date_filter (w : WxState) (parseIso : String → Option Nat) (today : Nat)
    (dayTs : Nat → Int) (contact sdate edate : String) (sd ed : Nat)
    (dbfile : String) (rows : List RawRow)
    (hs : sdate ≠ "") (hps : parseIso sdate = some sd) (hpe : parseIso edate = some ed)
    (ht : dictGet w.message_tables (reader_table contact) = some dbfile)
    (hr : w.readTable dbfile (reader_table contact) = some rows) :
    (read_chat_message w parseIso today dayTs contact sdate edate).1
      = rows.filter (fun r =>
          decide (dayTs sd ≤ r.CreateTime ∧ r.CreateTime < dayTs (ed + 1))) := by
  have hb : (sdate != "") = true := bne_iff_ne.mpr hs
  simp only [read_chat_message, hb, hps, hpe, ht, hr, Option.getD_some, if_true]
  exact List.filter_congr (fun r _ => by
    rw [Bool.decide_and _ _]
    exact Bool.and_comm _ _)

theorem c7_date_filter_witness :
    (read_chat_message
        ⟨"me1234", [(reader_table "alice123", "Documents/db1")],
          fun _ _ => some [⟨100, 1, "a", 1⟩, ⟨200000, 1, "b", 1⟩]⟩
        (fun s => if s == "2024-01-01" then some 0
          else if s == "2024-01-02" then some 1 else none)
        5 (fun d => 86400 * (d : Int)) "alice123" "2024-01-01" "2024-01-02").1
      = [⟨100, 1, "a", 1⟩] :=
  (c7_date_filter
    ⟨"me1234", [(reader_table "alice123", "Documents/db1")],
      fun _ _ => some [⟨100, 1, "a", 1⟩, ⟨200000, 1, "b", 1⟩]⟩
    (fun s => if s == "2024-01-01" then some 0
      else if s == "2024-01-02" then some 1 else none)
    5 (fun d => 86400 * (d : Int)) "alice123" "2024-01-01" "2024-01-02" 0 1
    "Documents/db1" [⟨100, 1, "a", 1⟩, ⟨200000, 1, "b", 1⟩]
    (by decide) rfl rfl (by decide) rfl).trans (by decide)

/-- C8: the physical chat table name queried by the message reader
(wechat.py line 329) coincides, for every contact or group identity,
with the table name the contact/group model builder stores for that
identity (wechat.py lines 304 and 318): both derive it as "Chat_"
followed by the MD5 hex digest of the identity. -/
theorem c8_table_consistency (identity : String) :
    contact_table identity = reader_table identity ∧
    reader_table identity = "Chat_" ++ username_to_md5 identity :=
  ⟨rfl, rfl⟩

end WXMiner
